import Mathlib

/-!
Shallow embedding of the reactive configuration graph of LMFuser
(src/lmfuser/dataloader_config.py and src/lmfuser/task.py).

Conventions of the embedding:
* A hyperargs `Conf` instance becomes a Lean structure holding the current
  value of every declared argument.  `IntArg` values are `Nat`/`Int`,
  `FloatArg` values are `Rat` (the concrete literals 0.0, 0.1 and 1.0 are
  exact, and the embedded code performs no float arithmetic on them),
  `BoolArg` is `Bool`, `StrArg` is `String`; an argument whose `value()` may
  be `None` is an `Option`.
* The bodies of the `@monitor_on` reshape methods are translated line by
  line from the Python source, preserving Python list semantics: slicing
  copies, `+=` on a list extends it in place, and rebinding a `for`-loop
  variable does not write through to the iterated list.
* Field edits (hyperargs `set` plus propagation) are modelled from the spec:
  a setter validates the new value against the declared bounds, rejects an
  out-of-range value leaving the tree unchanged, and on success stores the
  value and runs the monitors registered on that field.  Each setter returns
  the new tree together with `none` on success or the raised error.
-/

namespace LMFuser

/-- Resume position triple `(epoch, part, row)` from `lmfuser_data.interfaces.Index`. -/
structure Index where
  epoch : Nat
  part : Nat
  row : Nat
deriving DecidableEq, Repr

/-- `IndexConf`: three `IntArg(0, min_value=0)` fields. -/
structure IndexConf where
  epoch : Nat
  part : Nat
  row : Nat
deriving DecidableEq, Repr

/-- A freshly constructed `IndexConf()`: every field at its default 0. -/
def IndexConf.default : IndexConf := ⟨0, 0, 0⟩

/-- `IndexConf.to_index`. -/
def IndexConf.to_index (c : IndexConf) : Index := ⟨c.epoch, c.part, c.row⟩

/-- Default of `StrArg('Enther the path to the data file.')`. -/
def strArgPathDefault : String := "Enther the path to the data file."

/-- Default of `FloatArg(1.0, min_value=0.0, max_value=1.0)`. -/
def floatWeightDefault : Rat := 1

/-- Current values of a `DataLoaderConf` tree.  `batch_size` is an `Option`
because `IntArg.value()` is typed `int | None` in the source and
`init_dataloader` guards it with `assert bs is not None`. -/
structure DataLoaderConf where
  batch_size : Option Nat
  num_path : Nat
  path_list : List String
  path_weight : List Rat
  scanner_type : String
  seed : Int
  shuffle : Bool
  prefetch_factor : Nat
  ignore_error : Bool
  qps : Option Rat
  instruct_timeout : Option Rat
  worker_timeout : Option Rat
  num_workers : Nat
  num_ranks : Nat
  rank_idx : Nat
  worker_indexes : List (List IndexConf)
deriving DecidableEq, Repr

/-- A freshly constructed `DataLoaderConf` with every field at its declared
default: `batch_size=128, num_path=1, path_list=[StrArg default]`,
`path_weight=[1.0]`, `scanner_type='C4Scanner'`, `seed=42`, `shuffle=True`,
`prefetch_factor=2`, `ignore_error=True`, `qps=instruct_timeout=
worker_timeout=None`, `num_workers=num_ranks=1`, `rank_idx=0`,
`worker_indexes=[[IndexConf()]]`. -/
def DataLoaderConf.default : DataLoaderConf where
  batch_size := some 128
  num_path := 1
  path_list := [strArgPathDefault]
  path_weight := [floatWeightDefault]
  scanner_type := "C4Scanner"
  seed := 42
  shuffle := true
  prefetch_factor := 2
  ignore_error := true
  qps := none
  instruct_timeout := none
  worker_timeout := none
  num_workers := 1
  num_ranks := 1
  rank_idx := 0
  worker_indexes := [[IndexConf.default]]

/-- `DataLoaderConf.set_path_weight`, the `@monitor_on('num_path')` reshape:
truncate or grow `path_weight` and `path_list` to length `num_path`, new
entries at the fresh defaults. -/
def DataLoaderConf.set_path_weight (c : DataLoaderConf) : DataLoaderConf :=
  let num := c.num_path
  let pw :=
    if c.path_weight.length > num then c.path_weight.take num
    else if c.path_weight.length < num then
      c.path_weight ++ List.replicate (num - c.path_weight.length) floatWeightDefault
    else c.path_weight
  let pl :=
    if c.path_list.length > num then c.path_list.take num
    else if c.path_list.length < num then
      c.path_list ++ List.replicate (num - c.path_list.length) strArgPathDefault
    else c.path_list
  { c with path_weight := pw, path_list := pl }

/-- `DataLoaderConf.set_worker_indexes`, the reshape monitored on both
`num_path` and `num_workers`.  The outer list is resized to `num_path`.  The
inner `for worker_indexes in self.worker_indexes:` loop then compares each
inner list against `num_workers`; its growth branch `worker_indexes += [...]`
extends the inner list in place, but its truncation branch
`worker_indexes = worker_indexes[:num_worker_per_path]` only rebinds the loop
variable and therefore never shortens any inner list. -/
def DataLoaderConf.set_worker_indexes (c : DataLoaderConf) : DataLoaderConf :=
  let np := c.num_path
  let nw := c.num_workers
  let outer :=
    if c.worker_indexes.length > np then c.worker_indexes.take np
    else if c.worker_indexes.length < np then
      c.worker_indexes ++ List.replicate (np - c.worker_indexes.length) [IndexConf.default]
    else c.worker_indexes
  let inner := outer.map fun w =>
    if w.length > nw then w
    else if w.length < nw then w ++ List.replicate (nw - w.length) IndexConf.default
    else w
  { c with worker_indexes := inner }

/-- Errors a field edit can raise. -/
inductive EditError where
  | validationError (field : String)
  | unknownTypeError (name : String)
  | attributeError (attr : String)
deriving DecidableEq, Repr

/-- Modelled from the spec: the hyperargs `set` entry point for
`num_path = IntArg(1, min_value=1)`.  A value below the bound is rejected
with a `ValidationError` leaving the tree unchanged; a valid value is stored
and the monitors registered on `num_path` (`set_path_weight` and
`set_worker_indexes`) run. -/
def DataLoaderConf.set_num_path (c : DataLoaderConf) (n : Int) :
    DataLoaderConf × Option EditError :=
  if n < 1 then (c, some (.validationError "num_path"))
  else
    (DataLoaderConf.set_worker_indexes
      (DataLoaderConf.set_path_weight { c with num_path := n.toNat }), none)

/-- Modelled from the spec: hyperargs `set` for
`num_workers = IntArg(1, min_value=1)`; on success the monitor
`set_worker_indexes` runs. -/
def DataLoaderConf.set_num_workers (c : DataLoaderConf) (n : Int) :
    DataLoaderConf × Option EditError :=
  if n < 1 then (c, some (.validationError "num_workers"))
  else (DataLoaderConf.set_worker_indexes { c with num_workers := n.toNat }, none)

/-- Modelled from the spec: hyperargs `set` for
`num_ranks = IntArg(1, min_value=1)`; no monitor is registered on it. -/
def DataLoaderConf.set_num_ranks (c : DataLoaderConf) (n : Int) :
    DataLoaderConf × Option EditError :=
  if n < 1 then (c, some (.validationError "num_ranks"))
  else ({ c with num_ranks := n.toNat }, none)

/-- Modelled from the spec: hyperargs `set` for
`rank_idx = IntArg(0, min_value=0)`; no monitor is registered on it. -/
def DataLoaderConf.set_rank_idx (c : DataLoaderConf) (n : Int) :
    DataLoaderConf × Option EditError :=
  if n < 0 then (c, some (.validationError "rank_idx"))
  else ({ c with rank_idx := n.toNat }, none)

/-- Modelled from the spec: hyperargs `set` for
`batch_size = IntArg(128, min_value=1)`; no monitor is registered on it. -/
def DataLoaderConf.set_batch_size (c : DataLoaderConf) (n : Int) :
    DataLoaderConf × Option EditError :=
  if n < 1 then (c, some (.validationError "batch_size"))
  else ({ c with batch_size := some n.toNat }, none)

/-- One field edit on a `DataLoaderConf`. -/
inductive Edit where
  | setNumPath (n : Int)
  | setNumWorkers (n : Int)
  | setNumRanks (n : Int)
  | setRankIdx (n : Int)
  | setBatchSize (n : Int)
deriving DecidableEq, Repr

/-- Apply one edit; a rejected edit leaves the tree unchanged. -/
def DataLoaderConf.applyEdit (c : DataLoaderConf) : Edit → DataLoaderConf × Option EditError
  | .setNumPath n => c.set_num_path n
  | .setNumWorkers n => c.set_num_workers n
  | .setNumRanks n => c.set_num_ranks n
  | .setRankIdx n => c.set_rank_idx n
  | .setBatchSize n => c.set_batch_size n

/-- The tree reached from `c` by a sequence of edits (each rejected edit
leaves the tree unchanged, as hyperargs validation does). -/
def DataLoaderConf.applyEdits (c : DataLoaderConf) (es : List Edit) : DataLoaderConf :=
  es.foldl (fun c e => (DataLoaderConf.applyEdit c e).1) c

/-- The argument record of the `DataLoader(...)` call in
`DataLoaderConf.init_dataloader`.  The opaque callable hooks (`map_fn`,
`flow_fn`, `batch_map_fn`) are `None` in every modelled call and are omitted. -/
structure DataLoader where
  batch_size : Nat
  path_list : List String
  scanner_type : String
  seed : Int
  shuffle : Bool
  pre_fetch_factor : Nat
  indexes : List (List Index)
  infinite : Bool
  ignore_error : Bool
  qps : Option Rat
  instruct_timeout : Option Rat
  worker_timeout : Option Rat
  restart_cnt : Option Nat
  num_workers : Nat
  num_ranks : Nat
  rank_idx : Nat
  distributor_weights : List Rat
deriving DecidableEq, Repr

/-- An assembly failure: the raised error together with the field paths its
message names.  The `assert bs is not None` in `init_dataloader` is a bare
assertion, so it names no field. -/
structure AssemblyFailure where
  message : String
  named_fields : List String
deriving DecidableEq, Repr

/-- `DataLoaderConf.init_dataloader` (hooks left at `None`): assert
`batch_size` is set, then construct the `DataLoader` from the field values,
with `infinite=False` and `restart_cnt=None` hardcoded. -/
def DataLoaderConf.init_dataloader (c : DataLoaderConf) :
    Except AssemblyFailure DataLoader :=
  match c.batch_size with
  | none => .error ⟨"AssertionError", []⟩
  | some bs =>
    .ok {
      batch_size := bs
      path_list := c.path_list
      scanner_type := c.scanner_type
      seed := c.seed
      shuffle := c.shuffle
      pre_fetch_factor := c.prefetch_factor
      indexes := c.worker_indexes.map fun seq => seq.map IndexConf.to_index
      infinite := false
      ignore_error := c.ignore_error
      qps := c.qps
      instruct_timeout := c.instruct_timeout
      worker_timeout := c.worker_timeout
      restart_cnt := none
      num_workers := c.num_workers
      num_ranks := c.num_ranks
      rank_idx := c.rank_idx
      distributor_weights := c.path_weight }

/-- The argument record of the `DataLoader(...)` calls in
`TaskBase._get_train_dataloader` and `TaskBase._get_eval_dataloader`
(again without the opaque callable hooks). -/
structure TaskDataLoader where
  batch_size : Nat
  path_list : List String
  distributor_weights : List Rat
  scanner_type : String
  seed : Int
  shuffle : Bool
  pre_fetch_factor : Nat
  ignore_error : Bool
  qps : Option Rat
  instruct_timeout : Rat
  worker_timeout : Rat
  num_workers : Nat
  rank_idx : Nat
  num_ranks : Nat
deriving DecidableEq, Repr

/-- Current values of a `TaskBase` config node, together with its two cached
dataloaders (`_train_dataloader` and `_eval_dataloader`, both `None` until
first built).  `scanner_type` is an `Option` because the source asserts
`scanner_type is not None` before use. -/
structure TaskBase where
  num_train_data_path : Nat
  train_data_path_list : List String
  train_data_weights : List Rat
  num_eval_data_path : Nat
  eval_data_path_list : List String
  eval_data_weights : List Rat
  scanner_type : Option String
  train_dataloader : Option TaskDataLoader
  eval_dataloader : Option TaskDataLoader
deriving DecidableEq, Repr

/-- A freshly constructed `TaskBase`: counts 1, singleton default lists,
`scanner_type='C4Scanner'`, no cached dataloaders. -/
def TaskBase.default : TaskBase where
  num_train_data_path := 1
  train_data_path_list := [strArgPathDefault]
  train_data_weights := [floatWeightDefault]
  num_eval_data_path := 1
  eval_data_path_list := [strArgPathDefault]
  eval_data_weights := [floatWeightDefault]
  scanner_type := some "C4Scanner"
  train_dataloader := none
  eval_dataloader := none

/-- `TaskBase.set_train_path_list`, the `@monitor_on('num_train_data_path')`
reshape: truncate both train lists to `num`, or grow each by the shortfall
against its own length. -/
def TaskBase.set_train_path_list (t : TaskBase) : TaskBase :=
  let num := t.num_train_data_path
  if t.train_data_path_list.length > num then
    { t with
      train_data_path_list := t.train_data_path_list.take num
      train_data_weights := t.train_data_weights.take num }
  else if t.train_data_path_list.length < num then
    { t with
      train_data_path_list := t.train_data_path_list ++
        List.replicate (num - t.train_data_path_list.length) strArgPathDefault
      train_data_weights := t.train_data_weights ++
        List.replicate (num - t.train_data_weights.length) floatWeightDefault }
  else t

/-- `TaskBase.set_eval_path_list`, the `@monitor_on('num_eval_data_path')`
reshape.  The growth branch of the source computes both shortfalls against
the TRAIN lists (`num - len(self.train_data_path_list)` and
`num - len(self.train_data_weights)`); Python list repetition with a
negative count yields the empty list, which truncated `Nat` subtraction
reproduces. -/
def TaskBase.set_eval_path_list (t : TaskBase) : TaskBase :=
  let num := t.num_eval_data_path
  if t.eval_data_path_list.length > num then
    { t with
      eval_data_path_list := t.eval_data_path_list.take num
      eval_data_weights := t.eval_data_weights.take num }
  else if t.eval_data_path_list.length < num then
    { t with
      eval_data_path_list := t.eval_data_path_list ++
        List.replicate (num - t.train_data_path_list.length) strArgPathDefault
      eval_data_weights := t.eval_data_weights ++
        List.replicate (num - t.train_data_weights.length) floatWeightDefault }
  else t

/-- Modelled from the spec: hyperargs `set` for
`num_train_data_path = IntArg(1, min_value=0)`; on success the monitor
`set_train_path_list` runs. -/
def TaskBase.set_num_train_data_path (t : TaskBase) (n : Int) :
    TaskBase × Option EditError :=
  if n < 0 then (t, some (.validationError "num_train_data_path"))
  else (TaskBase.set_train_path_list { t with num_train_data_path := n.toNat }, none)

/-- Modelled from the spec: hyperargs `set` for
`num_eval_data_path = IntArg(1, min_value=0)`; on success the monitor
`set_eval_path_list` runs. -/
def TaskBase.set_num_eval_data_path (t : TaskBase) (n : Int) :
    TaskBase × Option EditError :=
  if n < 0 then (t, some (.validationError "num_eval_data_path"))
  else (TaskBase.set_eval_path_list { t with num_eval_data_path := n.toNat }, none)

/-- The non-self arguments of `TaskBase._get_train_dataloader` and
`TaskBase._get_eval_dataloader`. -/
structure LoaderArgs where
  batch_size : Nat
  seed : Int
  shuffle : Bool
  prefetch_factor : Nat
  ignore_error : Bool
  qps : Option Rat
  instruct_timeout : Rat
  worker_timeout : Rat
  num_workers : Nat
  rank : Nat
  world_size : Nat
deriving DecidableEq, Repr

/-- The `DataLoader(...)` record `TaskBase._get_train_dataloader` constructs
on a cache miss, from the train lists, the validated scanner name and the
call arguments. -/
def TaskBase.buildTrainDataLoader (t : TaskBase) (a : LoaderArgs) (sc : String) :
    TaskDataLoader where
  batch_size := a.batch_size
  path_list := t.train_data_path_list
  distributor_weights := t.train_data_weights
  scanner_type := sc
  seed := a.seed
  shuffle := a.shuffle
  pre_fetch_factor := a.prefetch_factor
  ignore_error := a.ignore_error
  qps := a.qps
  instruct_timeout := a.instruct_timeout
  worker_timeout := a.worker_timeout
  num_workers := a.num_workers
  rank_idx := a.rank
  num_ranks := a.world_size

/-- `TaskBase._get_train_dataloader`: `None` when `num_train_data_path == 0`,
else the cached loader if one exists, else build one from the train lists and
the call arguments, cache and return it.  A `None` `scanner_type` raises
`AssertionError('scanner_type is None')`.  The result pairs the post-call
state with the returned value. -/
def TaskBase.get_train_dataloader (t : TaskBase) (a : LoaderArgs) :
    Except String (TaskBase × Option TaskDataLoader) :=
  if t.num_train_data_path = 0 then .ok (t, none)
  else match t.train_dataloader with
  | some dl => .ok (t, some dl)
  | none =>
    match t.scanner_type with
    | none => .error "scanner_type is None"
    | some sc =>
      let dl := t.buildTrainDataLoader a sc
      .ok ({ t with train_dataloader := some dl }, some dl)

/-- The `DataLoader(...)` record `TaskBase._get_eval_dataloader` constructs
on a cache miss, from the eval lists, the validated scanner name and the
call arguments. -/
def TaskBase.buildEvalDataLoader (t : TaskBase) (a : LoaderArgs) (sc : String) :
    TaskDataLoader where
  batch_size := a.batch_size
  path_list := t.eval_data_path_list
  distributor_weights := t.eval_data_weights
  scanner_type := sc
  seed := a.seed
  shuffle := a.shuffle
  pre_fetch_factor := a.prefetch_factor
  ignore_error := a.ignore_error
  qps := a.qps
  instruct_timeout := a.instruct_timeout
  worker_timeout := a.worker_timeout
  num_workers := a.num_workers
  rank_idx := a.rank
  num_ranks := a.world_size

/-- `TaskBase._get_eval_dataloader`, symmetric to the train variant but keyed
on `num_eval_data_path`, the eval lists and the eval cache. -/
def TaskBase.get_eval_dataloader (t : TaskBase) (a : LoaderArgs) :
    Except String (TaskBase × Option TaskDataLoader) :=
  if t.num_eval_data_path = 0 then .ok (t, none)
  else match t.eval_dataloader with
  | some dl => .ok (t, some dl)
  | none =>
    match t.scanner_type with
    | none => .error "scanner_type is None"
    | some sc =>
      let dl := t.buildEvalDataLoader a sc
      .ok ({ t with eval_dataloader := some dl }, some dl)

/-- A task config instance owned by a `TaskSelector`: the name of its
concrete class (`self.conf.__class__.__name__`) together with its `TaskBase`
field values. -/
structure TaskInstance where
  className : String
  state : TaskBase
deriving DecidableEq, Repr

/-- `TaskBase.all_subclass_map()[name]()`: a fresh default instance of the
registered class `name`. -/
def TaskInstance.mkDefault (name : String) : TaskInstance :=
  ⟨name, TaskBase.default⟩

/-- Current values of a `TaskSelector` node: the `task_name` option field
(default `'Task'`) and the owned child conf (default a fresh `Task()`). -/
structure TaskSelector where
  task_name : Option String
  conf : TaskInstance
deriving DecidableEq, Repr

/-- A freshly constructed `TaskSelector`. -/
def TaskSelector.default : TaskSelector :=
  ⟨some "Task", TaskInstance.mkDefault "Task"⟩

/-- `TaskSelector.change_conf`, the `@monitor_on('task_name')` reshape: a
`None` name resets the child to a fresh `Task()`; a name differing from the
current class name replaces the child with a fresh default instance of that
class; a name equal to the current class name changes nothing. -/
def TaskSelector.change_conf (s : TaskSelector) : TaskSelector :=
  match s.task_name with
  | none => { s with conf := TaskInstance.mkDefault "Task" }
  | some name =>
    if name ≠ s.conf.className then { s with conf := TaskInstance.mkDefault name }
    else s

/-- Modelled from the spec: hyperargs `set` for
`task_name = OptionArg(default='Task', option_fn=task_list)`.  `registry` is
the dynamic option set `task_list()` (the names of all registered `TaskBase`
subclasses); a name outside it is rejected leaving the tree unchanged, a
registered name is stored and the monitor `change_conf` runs. -/
def TaskSelector.set_task_name (registry : List String) (s : TaskSelector)
    (name : String) : TaskSelector × Option EditError :=
  if name ∈ registry then
    (TaskSelector.change_conf { s with task_name := some name }, none)
  else (s, some (.unknownTypeError name))

/-- Current values of a `Tasks` node.  The declared weight field is
`task_weights`; the reshape body misspells it `task_weight`. -/
structure Tasks where
  num_tasks : Nat
  tasks : List TaskSelector
  task_weights : List Rat
deriving DecidableEq, Repr

/-- A freshly constructed `Tasks`. -/
def Tasks.default : Tasks :=
  ⟨1, [TaskSelector.default], [floatWeightDefault]⟩

/-- `Tasks.change_task_list`, the `@monitor_on('num_tasks')` reshape.  Both
branches first resize `self.tasks`, then touch `self.task_weight` — an
attribute that does not exist (the declared field is `task_weights`) — so
each raises `AttributeError` after the `tasks` resize has been applied, and
`task_weights` is never resized.  The result pairs the post-call state with
the raised error, if any. -/
def Tasks.change_task_list (c : Tasks) : Tasks × Option EditError :=
  let num := c.num_tasks
  if c.tasks.length > num then
    ({ c with tasks := c.tasks.take num }, some (.attributeError "task_weight"))
  else if c.tasks.length < num then
    ({ c with tasks := c.tasks ++
        List.replicate (num - c.tasks.length) TaskSelector.default },
      some (.attributeError "task_weight"))
  else (c, none)

/-- Modelled from the spec: hyperargs `set` for
`num_tasks = IntArg(1, min_value=1)`; on success the monitor
`change_task_list` runs (and may itself raise). -/
def Tasks.set_num_tasks (c : Tasks) (n : Int) : Tasks × Option EditError :=
  if n < 1 then (c, some (.validationError "num_tasks"))
  else Tasks.change_task_list { c with num_tasks := n.toNat }

/-- A `DataLoaderConf` whose `batch_size` is unset (its `value()` is `None`),
the tree claim C7 quantifies over. -/
def unsetBatchConf : DataLoaderConf :=
  { DataLoaderConf.default with batch_size := none }

/-- Concrete first-call arguments for the caching witness. -/
def loaderArgsA : LoaderArgs :=
  ⟨8, 1, true, 2, true, none, 1, 1, 1, 0, 1⟩

/-- Concrete second-call arguments, every component different from
`loaderArgsA`. -/
def loaderArgsB : LoaderArgs :=
  ⟨16, 2, false, 3, false, some 1, 2, 2, 2, 1, 4⟩

end LMFuser

/-!
Theorems settling the claims.  Helper lemmas about the reshape rules come
first; each claim theorem carries the claim id in its doc comment.
-/

namespace LMFuser

lemma set_worker_indexes_path_list (c : DataLoaderConf) :
    (c.set_worker_indexes).path_list = c.path_list := rfl

lemma set_worker_indexes_path_weight (c : DataLoaderConf) :
    (c.set_worker_indexes).path_weight = c.path_weight := rfl

lemma set_path_weight_path_weight_eq (c : DataLoaderConf) :
    (c.set_path_weight).path_weight =
      if c.num_path < c.path_weight.length then c.path_weight.take c.num_path
      else c.path_weight ++
        List.replicate (c.num_path - c.path_weight.length) floatWeightDefault := by
  simp only [DataLoaderConf.set_path_weight]
  rcases lt_trichotomy c.num_path c.path_weight.length with h | h | h
  · simp [h, Nat.lt_irrefl, gt_iff_lt]
  · simp [h]
  · have h1 : ¬ c.path_weight.length > c.num_path := by omega
    have h2 : c.path_weight.length < c.num_path := h
    have h3 : ¬ c.num_path < c.path_weight.length := by omega
    simp [h1, h2, h3]

lemma set_path_weight_path_list_eq (c : DataLoaderConf) :
    (c.set_path_weight).path_list =
      if c.num_path < c.path_list.length then c.path_list.take c.num_path
      else c.path_list ++
        List.replicate (c.num_path - c.path_list.length) strArgPathDefault := by
  simp only [DataLoaderConf.set_path_weight]
  rcases lt_trichotomy c.num_path c.path_list.length with h | h | h
  · simp [h, Nat.lt_irrefl, gt_iff_lt]
  · simp [h]
  · have h1 : ¬ c.path_list.length > c.num_path := by omega
    have h2 : c.path_list.length < c.num_path := h
    have h3 : ¬ c.num_path < c.path_list.length := by omega
    simp [h1, h2, h3]

lemma set_path_weight_lengths (c : DataLoaderConf) :
    (c.set_path_weight).path_weight.length = c.num_path ∧
      (c.set_path_weight).path_list.length = c.num_path := by
  rw [set_path_weight_path_weight_eq, set_path_weight_path_list_eq]
  constructor <;> split_ifs <;> simp <;> omega

/-- C1: on a fresh tree, `num_path = 3` then `num_workers = 2` does yield a
`worker_indexes` of 3 inner lists, each of length 2, all at the default
`(0,0,0)` — but the subsequent `num_workers = 1` leaves every inner list at
length 2 instead of truncating it to 1, because the truncation branch of the
inner loop in `set_worker_indexes` only rebinds the loop variable.  The
second conjunct evaluates the code at the failing input of the claim. -/
theorem jagged_truncation_is_skipped :
    (((DataLoaderConf.default.set_num_path 3).1.set_num_workers 2).1).worker_indexes =
        [[IndexConf.default, IndexConf.default], [IndexConf.default, IndexConf.default],
          [IndexConf.default, IndexConf.default]] ∧
      ((((DataLoaderConf.default.set_num_path 3).1.set_num_workers 2).1.set_num_workers
            1).1).worker_indexes =
        [[IndexConf.default, IndexConf.default], [IndexConf.default, IndexConf.default],
          [IndexConf.default, IndexConf.default]] := by decide

/-- C2: on a fresh `Tasks` tree, editing `num_tasks` to 2 grows `tasks` to
length 2, then raises `AttributeError` because `change_task_list` writes
`self.task_weight` while the declared field is `task_weights`; the weight
list is left at length 1, so the two lists governed by `num_tasks` do not
end at equal length. -/
theorem tasks_weights_diverge :
    (Tasks.default.set_num_tasks 2).1.tasks.length = 2 ∧
      (Tasks.default.set_num_tasks 2).1.task_weights.length = 1 ∧
      (Tasks.default.set_num_tasks 2).2 =
        some (EditError.attributeError "task_weight") := by decide

/-- C3 counterexample: `num_path` is declared `IntArg(1, min_value=1)`, so
setting it to the non-negative integer 0 is rejected with a
`ValidationError` and the tree is unchanged — the claim that every `n ≥ 0`
succeeds fails at `n = 0`. -/
theorem num_path_rejects_zero :
    DataLoaderConf.default.set_num_path 0 =
      (DataLoaderConf.default, some (EditError.validationError "num_path")) := by decide

/-- C3 amended: for every integer `n ≥ 1`, setting `num_path` to `n`
succeeds and after propagation both `path_list` and `path_weight` have
length exactly `n`. -/
theorem set_num_path_resizes_lists (c : DataLoaderConf) (n : Int) (h : 1 ≤ n) :
    (c.set_num_path n).2 = none ∧
      (c.set_num_path n).1.path_list.length = n.toNat ∧
      (c.set_num_path n).1.path_weight.length = n.toNat := by
  have hn : ¬ n < 1 := not_lt.2 h
  simp only [DataLoaderConf.set_num_path, hn, if_false]
  refine ⟨trivial, ?_, ?_⟩
  · rw [set_worker_indexes_path_list]
    have := (set_path_weight_lengths { c with num_path := n.toNat }).2
    simpa using this
  · rw [set_worker_indexes_path_weight]
    have := (set_path_weight_lengths { c with num_path := n.toNat }).1
    simpa using this

/-- C3 witness: setting `num_path = 5` on a fresh tree succeeds and both
lists end at length 5. -/
theorem set_num_path_resizes_lists_witness :
    (DataLoaderConf.default.set_num_path 5).2 = none ∧
      (DataLoaderConf.default.set_num_path 5).1.path_list.length = (5 : Int).toNat ∧
      (DataLoaderConf.default.set_num_path 5).1.path_weight.length = (5 : Int).toNat :=
  set_num_path_resizes_lists DataLoaderConf.default 5 (by decide)

/-- C4: a count edit of `num_path` to `n` resizes `path_weight` and
`path_list` by the declared rule — when `n` is below the current length the
result is exactly the first `n` original elements (`take`), otherwise the
original elements stay at their indices and the shortfall is appended as
fresh defaults (weight `1.0`, the default prompt string). -/
theorem count_edit_resize_rule (c : DataLoaderConf) (n : Int) (h : 1 ≤ n) :
    (c.set_num_path n).1.path_weight =
      (if n.toNat < c.path_weight.length then c.path_weight.take n.toNat
       else c.path_weight ++
         List.replicate (n.toNat - c.path_weight.length) floatWeightDefault) ∧
    (c.set_num_path n).1.path_list =
      (if n.toNat < c.path_list.length then c.path_list.take n.toNat
       else c.path_list ++
         List.replicate (n.toNat - c.path_list.length) strArgPathDefault) := by
  have hn : ¬ n < 1 := not_lt.2 h
  simp only [DataLoaderConf.set_num_path, hn, if_false]
  rw [set_worker_indexes_path_weight, set_worker_indexes_path_list,
    set_path_weight_path_weight_eq, set_path_weight_path_list_eq]
  simp

/-- C4 witness: the resize rule evaluated at a growth step on the fresh
tree (`num_path` from 1 to 3). -/
theorem count_edit_resize_rule_witness :
    ((DataLoaderConf.default.set_num_path 3).1.path_weight =
      (if (3 : Int).toNat < DataLoaderConf.default.path_weight.length then
        DataLoaderConf.default.path_weight.take (3 : Int).toNat
       else DataLoaderConf.default.path_weight ++
         List.replicate ((3 : Int).toNat - DataLoaderConf.default.path_weight.length)
           floatWeightDefault)) ∧
    ((DataLoaderConf.default.set_num_path 3).1.path_list =
      (if (3 : Int).toNat < DataLoaderConf.default.path_list.length then
        DataLoaderConf.default.path_list.take (3 : Int).toNat
       else DataLoaderConf.default.path_list ++
         List.replicate ((3 : Int).toNat - DataLoaderConf.default.path_list.length)
           strArgPathDefault)) :=
  count_edit_resize_rule DataLoaderConf.default 3 (by decide)

/-- C5: when the name being selected is registered and equals the class name
of the current child conf, `set_task_name` succeeds and the child instance —
with all its field values — is unchanged. -/
theorem selection_idempotent (registry : List String) (s : TaskSelector)
    (name : String) (hreg : name ∈ registry) (hname : s.conf.className = name) :
    (TaskSelector.set_task_name registry s name).1.conf = s.conf ∧
      (TaskSelector.set_task_name registry s name).2 = none := by
  simp [TaskSelector.set_task_name, hreg, TaskSelector.change_conf, hname]

/-- C5 witness: re-selecting the already-active name `Task` on a fresh
selector leaves the child untouched. -/
theorem selection_idempotent_witness :
    (TaskSelector.set_task_name ["Task"] TaskSelector.default "Task").1.conf =
      TaskSelector.default.conf ∧
      (TaskSelector.set_task_name ["Task"] TaskSelector.default "Task").2 = none :=
  selection_idempotent ["Task"] TaskSelector.default "Task" (by decide) rfl

/-- C6: selecting a name outside the registry of task implementations fails
with `UnknownTypeError` and returns the whole tree exactly as it was. -/
theorem unknown_type_rejected (registry : List String) (s : TaskSelector)
    (name : String) (h : name ∉ registry) :
    TaskSelector.set_task_name registry s name =
      (s, some (EditError.unknownTypeError name)) := by
  simp [TaskSelector.set_task_name, h]

/-- C6 witness: the unregistered name `NoSuchTask` is rejected on a fresh
selector with a one-entry registry. -/
theorem unknown_type_rejected_witness :
    TaskSelector.set_task_name ["Task"] TaskSelector.default "NoSuchTask" =
      (TaskSelector.default, some (EditError.unknownTypeError "NoSuchTask")) :=
  unknown_type_rejected ["Task"] TaskSelector.default "NoSuchTask" (by decide)

/-- C7 counterexample: assembling a tree whose required `batch_size` is
unset fails through the bare `assert bs is not None`, an error that names NO
field path at all — in particular not the offending `batch_size` — so no
aggregated `AssemblyError` naming every offending field is produced. -/
theorem assembly_error_names_no_field :
    DataLoaderConf.init_dataloader unsetBatchConf =
        .error { message := "AssertionError", named_fields := [] } ∧
      "batch_size" ∉
        (AssemblyFailure.mk "AssertionError" []).named_fields :=
  ⟨rfl, by decide⟩

/-- C7 amended: on any tree whose `batch_size` is unset, assembly fails at
the first assertion with a bare `AssertionError` naming no field path, and
produces no runtime object (the failure is immediate, not aggregated). -/
theorem assembly_assert_unaggregated (c : DataLoaderConf) (h : c.batch_size = none) :
    c.init_dataloader = .error { message := "AssertionError", named_fields := [] } := by
  simp [DataLoaderConf.init_dataloader, h]

/-- C7 witness: the amended behavior evaluated on the concrete tree with
`batch_size` unset. -/
theorem assembly_assert_unaggregated_witness :
    DataLoaderConf.init_dataloader unsetBatchConf =
      .error { message := "AssertionError", named_fields := [] } :=
  assembly_assert_unaggregated unsetBatchConf rfl

/-- C8 counterexample: on a fresh tree (`num_ranks = 1`) the single field
edit `rank_idx = 1` passes validation, yielding an accepted configuration
with `rank_idx ≥ num_ranks` — no constraint ties the two fields. -/
theorem rank_idx_not_bounded_by_num_ranks :
    (DataLoaderConf.default.set_rank_idx 1).2 = none ∧
      (DataLoaderConf.default.set_rank_idx 1).1.rank_idx = 1 ∧
      (DataLoaderConf.default.set_rank_idx 1).1.num_ranks = 1 := by decide

lemma applyEdit_bounds (c : DataLoaderConf) (e : Edit)
    (h1 : 1 ≤ c.num_workers) (h2 : 1 ≤ c.num_ranks) :
    1 ≤ ((c.applyEdit e).1).num_workers ∧ 1 ≤ ((c.applyEdit e).1).num_ranks := by
  cases e with
  | setNumPath n =>
    by_cases hn : n < 1
    · simp [DataLoaderConf.applyEdit, DataLoaderConf.set_num_path, hn, h1, h2]
    · simp [DataLoaderConf.applyEdit, DataLoaderConf.set_num_path, hn,
        DataLoaderConf.set_worker_indexes, DataLoaderConf.set_path_weight, h1, h2]
  | setNumWorkers n =>
    by_cases hn : n < 1
    · simp [DataLoaderConf.applyEdit, DataLoaderConf.set_num_workers, hn, h1, h2]
    · refine ⟨?_, ?_⟩
      · simp [DataLoaderConf.applyEdit, DataLoaderConf.set_num_workers, hn,
          DataLoaderConf.set_worker_indexes]
        omega
      · simp [DataLoaderConf.applyEdit, DataLoaderConf.set_num_workers, hn,
          DataLoaderConf.set_worker_indexes, h2]
  | setNumRanks n =>
    by_cases hn : n < 1
    · simp [DataLoaderConf.applyEdit, DataLoaderConf.set_num_ranks, hn, h1, h2]
    · refine ⟨?_, ?_⟩
      · simp [DataLoaderConf.applyEdit, DataLoaderConf.set_num_ranks, hn, h1]
      · simp [DataLoaderConf.applyEdit, DataLoaderConf.set_num_ranks, hn]
        omega
  | setRankIdx n =>
    by_cases hn : n < 0
    · simp [DataLoaderConf.applyEdit, DataLoaderConf.set_rank_idx, hn, h1, h2]
    · simp [DataLoaderConf.applyEdit, DataLoaderConf.set_rank_idx, hn, h1, h2]
  | setBatchSize n =>
    by_cases hn : n < 1
    · simp [DataLoaderConf.applyEdit, DataLoaderConf.set_batch_size, hn, h1, h2]
    · simp [DataLoaderConf.applyEdit, DataLoaderConf.set_batch_size, hn, h1, h2]

lemma applyEdits_bounds (es : List Edit) :
    ∀ c : DataLoaderConf, 1 ≤ c.num_workers → 1 ≤ c.num_ranks →
      1 ≤ (c.applyEdits es).num_workers ∧ 1 ≤ (c.applyEdits es).num_ranks := by
  induction es with
  | nil => intro c h1 h2; exact ⟨h1, h2⟩
  | cons e es ih =>
    intro c h1 h2
    have h := applyEdit_bounds c e h1 h2
    simpa [DataLoaderConf.applyEdits, List.foldl_cons] using
      ih ((c.applyEdit e).1) h.1 h.2

/-- C8 amended: after any sequence of field edits starting from the fresh
tree (rejected edits leaving the tree unchanged), validation does keep
`num_workers ≥ 1` and `num_ranks ≥ 1` (`rank_idx ≥ 0` holds by its type);
the cross-field bound `rank_idx < num_ranks` is however NOT enforced, as the
counterexample shows. -/
theorem edits_preserve_bounds (es : List Edit) :
    1 ≤ (DataLoaderConf.default.applyEdits es).num_workers ∧
      1 ≤ (DataLoaderConf.default.applyEdits es).num_ranks :=
  applyEdits_bounds es DataLoaderConf.default (by decide) (by decide)

/-- C9: on any tree whose `batch_size` is set, `init_dataloader` succeeds
and forwards every configured field value unchanged into the `DataLoader`
request — paths, weights (as `distributor_weights`), seed, shuffle,
prefetch, error policy, `qps` and both timeouts in particular, worker and
rank counts, and the resume indexes converted entrywise by `to_index` —
with `infinite=False` and `restart_cnt=None` fixed. -/
theorem assembly_passthrough (c : DataLoaderConf) (bs : Nat)
    (h : c.batch_size = some bs) :
    c.init_dataloader = .ok {
      batch_size := bs
      path_list := c.path_list
      scanner_type := c.scanner_type
      seed := c.seed
      shuffle := c.shuffle
      pre_fetch_factor := c.prefetch_factor
      indexes := c.worker_indexes.map fun seq => seq.map IndexConf.to_index
      infinite := false
      ignore_error := c.ignore_error
      qps := c.qps
      instruct_timeout := c.instruct_timeout
      worker_timeout := c.worker_timeout
      restart_cnt := none
      num_workers := c.num_workers
      num_ranks := c.num_ranks
      rank_idx := c.rank_idx
      distributor_weights := c.path_weight } := by
  simp [DataLoaderConf.init_dataloader, h]

/-- C9 witness: assembling the fresh default tree (`batch_size=128`, one
path at the default prompt, weight `1.0`) yields a request carrying exactly
those values with every optional field at its declared default. -/
theorem assembly_passthrough_witness :
    DataLoaderConf.init_dataloader DataLoaderConf.default = .ok {
      batch_size := 128
      path_list := [strArgPathDefault]
      scanner_type := "C4Scanner"
      seed := 42
      shuffle := true
      pre_fetch_factor := 2
      indexes := [[Index.mk 0 0 0]]
      infinite := false
      ignore_error := true
      qps := none
      instruct_timeout := none
      worker_timeout := none
      restart_cnt := none
      num_workers := 1
      num_ranks := 1
      rank_idx := 0
      distributor_weights := [floatWeightDefault] } :=
  assembly_passthrough DataLoaderConf.default 128 rfl

/-- C10: `_get_train_dataloader` returns `None` exactly when
`num_train_data_path` is 0 (even a cached loader is not returned then);
otherwise a cached loader is returned as-is, and on a cache miss with a set
scanner a loader is built, cached, and every subsequent call — with
arbitrary different arguments — returns that same cached loader;
`_get_eval_dataloader` behaves the same keyed on `num_eval_data_path`. -/
theorem dataloader_caching (t : TaskBase) (a a' : LoaderArgs) :
    (t.num_train_data_path = 0 → t.get_train_dataloader a = .ok (t, none)) ∧
    (t.num_eval_data_path = 0 → t.get_eval_dataloader a = .ok (t, none)) ∧
    (∀ dl, t.num_train_data_path ≠ 0 → t.train_dataloader = some dl →
      t.get_train_dataloader a = .ok (t, some dl)) ∧
    (∀ dl, t.num_eval_data_path ≠ 0 → t.eval_dataloader = some dl →
      t.get_eval_dataloader a = .ok (t, some dl)) ∧
    (∀ sc, t.num_train_data_path ≠ 0 → t.train_dataloader = none →
      t.scanner_type = some sc →
      ∃ t1 dl, t.get_train_dataloader a = .ok (t1, some dl) ∧
        t1.train_dataloader = some dl ∧
        t1.get_train_dataloader a' = .ok (t1, some dl)) ∧
    (∀ sc, t.num_eval_data_path ≠ 0 → t.eval_dataloader = none →
      t.scanner_type = some sc →
      ∃ t1 dl, t.get_eval_dataloader a = .ok (t1, some dl) ∧
        t1.eval_dataloader = some dl ∧
        t1.get_eval_dataloader a' = .ok (t1, some dl)) := by
  refine ⟨?_, ?_, ?_, ?_, ?_, ?_⟩
  · intro h0
    simp [TaskBase.get_train_dataloader, h0]
  · intro h0
    simp [TaskBase.get_eval_dataloader, h0]
  · intro dl h0 hc
    simp [TaskBase.get_train_dataloader, h0, hc]
  · intro dl h0 hc
    simp [TaskBase.get_eval_dataloader, h0, hc]
  · intro sc h0 hc hsc
    refine ⟨{ t with train_dataloader := some (t.buildTrainDataLoader a sc) },
      t.buildTrainDataLoader a sc, ?_, ?_, ?_⟩
    · simp [TaskBase.get_train_dataloader, h0, hc, hsc]
    · rfl
    · simp [TaskBase.get_train_dataloader, h0, hc, hsc]
  · intro sc h0 hc hsc
    refine ⟨{ t with eval_dataloader := some (t.buildEvalDataLoader a sc) },
      t.buildEvalDataLoader a sc, ?_, ?_, ?_⟩
    · simp [TaskBase.get_eval_dataloader, h0, hc, hsc]
    · rfl
    · simp [TaskBase.get_eval_dataloader, h0, hc, hsc]

/-- C10 witness: on a fresh `TaskBase`, the first call builds and caches a
loader, and a second call with entirely different arguments returns the same
cached loader. -/
theorem dataloader_caching_witness :
    ∃ t1 dl, TaskBase.default.get_train_dataloader loaderArgsA = .ok (t1, some dl) ∧
      t1.train_dataloader = some dl ∧
      t1.get_train_dataloader loaderArgsB = .ok (t1, some dl) :=
  (dataloader_caching TaskBase.default loaderArgsA loaderArgsB).2.2.2.2.1
    "C4Scanner" (by decide) rfl rfl

end LMFuser
